import Mathlib

set_option maxRecDepth 16000
set_option maxHeartbeats 1600000

/-!
Shallow embedding of `src/keymap.h` from the ADB2USB repository.

The source file declares a single constant array
`uint8_t keymap[128] = { ... }` translating Apple Extended Keyboard II
scan codes (7-bit, 0x00-0x7F) to logical key codes.  Entries are either
C character literals (ASCII codes), the raw byte `0x27`, the literal `0`
(no mapping), or symbolic constants `KEY_*` supplied by an external
keyboard library that the repository does not define.

The external constants are modelled by the structure `KeyConstants`,
whose fields live in `Fin 256` because the library defines them as
`uint8_t` values; the spec further states they are distinct from the
sentinel 0, captured by `KeyConstants.Valid`.  The array itself is
`keymap`, a `List Nat` with one entry per source line; a symbolic
constant stored into a `uint8_t` slot contributes its byte value `.val`.
`lookup` is the indexing operation the spec calls `lookup(scanCode)`,
with the domain `Fin 128` reflecting that only scan codes 0..127 are
representable inputs.
-/

/-- The symbolic key-code constants referenced by `keymap.h` and assumed to be
defined by the external keyboard library (e.g. Arduino `Keyboard.h`).
One field per distinct `KEY_*` identifier appearing in the source. -/
structure KeyConstants where
  KEY_RETURN : Fin 256
  KEY_TAB : Fin 256
  KEY_BACKSPACE : Fin 256
  KEY_ESC : Fin 256
  KEY_LEFT_CTRL : Fin 256
  KEY_LEFT_GUI : Fin 256
  KEY_LEFT_SHIFT : Fin 256
  KEY_CAPS_LOCK : Fin 256
  KEY_LEFT_ALT : Fin 256
  KEY_LEFT_ARROW : Fin 256
  KEY_RIGHT_ARROW : Fin 256
  KEY_DOWN_ARROW : Fin 256
  KEY_UP_ARROW : Fin 256
  KEY_KP_DOT : Fin 256
  KEY_KP_ASTERISK : Fin 256
  KEY_KP_PLUS : Fin 256
  KEY_NUM_LOCK : Fin 256
  KEY_KP_SLASH : Fin 256
  KEY_KP_ENTER : Fin 256
  KEY_KP_MINUS : Fin 256
  KEY_KP_0 : Fin 256
  KEY_KP_1 : Fin 256
  KEY_KP_2 : Fin 256
  KEY_KP_3 : Fin 256
  KEY_KP_4 : Fin 256
  KEY_KP_5 : Fin 256
  KEY_KP_6 : Fin 256
  KEY_KP_7 : Fin 256
  KEY_KP_8 : Fin 256
  KEY_KP_9 : Fin 256
  KEY_F1 : Fin 256
  KEY_F2 : Fin 256
  KEY_F3 : Fin 256
  KEY_F4 : Fin 256
  KEY_F5 : Fin 256
  KEY_F6 : Fin 256
  KEY_F7 : Fin 256
  KEY_F8 : Fin 256
  KEY_F9 : Fin 256
  KEY_F10 : Fin 256
  KEY_F11 : Fin 256
  KEY_F12 : Fin 256
  KEY_F13 : Fin 256
  KEY_F14 : Fin 256
  KEY_F15 : Fin 256
  KEY_INSERT : Fin 256
  KEY_HOME : Fin 256
  KEY_PAGE_UP : Fin 256
  KEY_PAGE_DOWN : Fin 256
  KEY_DELETE : Fin 256
  KEY_END : Fin 256
  KEY_RIGHT_SHIFT : Fin 256
  KEY_RIGHT_ALT : Fin 256
  KEY_RIGHT_CTRL : Fin 256

/-- All symbolic constants of a `KeyConstants` record, as a list. -/
def KeyConstants.fields (K : KeyConstants) : List (Fin 256) :=
  [K.KEY_RETURN, K.KEY_TAB, K.KEY_BACKSPACE, K.KEY_ESC,
   K.KEY_LEFT_CTRL, K.KEY_LEFT_GUI, K.KEY_LEFT_SHIFT, K.KEY_CAPS_LOCK,
   K.KEY_LEFT_ALT, K.KEY_LEFT_ARROW, K.KEY_RIGHT_ARROW, K.KEY_DOWN_ARROW,
   K.KEY_UP_ARROW, K.KEY_KP_DOT, K.KEY_KP_ASTERISK, K.KEY_KP_PLUS,
   K.KEY_NUM_LOCK, K.KEY_KP_SLASH, K.KEY_KP_ENTER, K.KEY_KP_MINUS,
   K.KEY_KP_0, K.KEY_KP_1, K.KEY_KP_2, K.KEY_KP_3, K.KEY_KP_4,
   K.KEY_KP_5, K.KEY_KP_6, K.KEY_KP_7, K.KEY_KP_8, K.KEY_KP_9,
   K.KEY_F1, K.KEY_F2, K.KEY_F3, K.KEY_F4, K.KEY_F5, K.KEY_F6, K.KEY_F7,
   K.KEY_F8, K.KEY_F9, K.KEY_F10, K.KEY_F11, K.KEY_F12, K.KEY_F13,
   K.KEY_F14, K.KEY_F15, K.KEY_INSERT, K.KEY_HOME, K.KEY_PAGE_UP,
   K.KEY_PAGE_DOWN, K.KEY_DELETE, K.KEY_END, K.KEY_RIGHT_SHIFT,
   K.KEY_RIGHT_ALT, K.KEY_RIGHT_CTRL]

/-- The assumption the spec makes about the external library: every named
key-code constant is an 8-bit value distinct from the sentinel 0. -/
abbrev KeyConstants.Valid (K : KeyConstants) : Prop :=
  ∀ v ∈ K.fields, v.val ≠ 0

/-- The scan-code table of `keymap.h`, one Lean list entry per source array
entry, in source order (index = scan code).  A C character literal becomes
its ASCII code written in hex (0x61 is the letter a, 0x31 the digit 1,
0x3D the equals sign, 0x20 the space, 0x60 the backtick, and so on);
each entry's comment is carried over from the source.  Symbolic constants
contribute their byte value. -/
def keymap (K : KeyConstants) : List Nat :=
  [0x61,           -- 0x00, A
   0x73,           -- 0x01, S
   0x64,           -- 0x02, D
   0x66,           -- 0x03, F
   0x68,           -- 0x04, H
   0x67,           -- 0x05, G
   0x7A,           -- 0x06, Z
   0x78,           -- 0x07, X
   0x63,           -- 0x08, C
   0x76,           -- 0x09, V
   0,                        -- 0x0A, UNKNOWN
   0x62,           -- 0x0B, B
   0x71,           -- 0x0C, Q
   0x77,           -- 0x0D, W
   0x65,           -- 0x0E, E
   0x72,           -- 0x0F, R
   0x79,           -- 0x10, Y
   0x74,           -- 0x11, T
   0x31,           -- 0x12, 1
   0x32,           -- 0x13, 2
   0x33,           -- 0x14, 3
   0x34,           -- 0x15, 4
   0x36,           -- 0x16, 6
   0x35,           -- 0x17, 5
   0x3D,           -- 0x18, = and +
   0x39,           -- 0x19, 9
   0x37,           -- 0x1A, 7
   0x2D,           -- 0x1B, - and _
   0x38,           -- 0x1C, 8
   0x30,           -- 0x1D, 0
   0x5D,           -- 0x1E, } and ]
   0x6F,           -- 0x1F, O
   0x75,           -- 0x20, U
   0x5B,           -- 0x21, { and [
   0x69,           -- 0x22, I
   0x70,           -- 0x23, P
   K.KEY_RETURN.val,       -- 0x24, Enter/Return
   0x6C,           -- 0x25, L
   0x6A,           -- 0x26, J
   0x27,                     -- 0x27, apostrophe (raw byte literal)
   0x6B,           -- 0x28, K
   0x3B,           -- 0x29, ; and :
   0x5C,          -- 0x2A, backslash and |
   0x2C,           -- 0x2B, , and <
   0x2F,           -- 0x2C, / and ?
   0x6E,           -- 0x2D, N
   0x6D,           -- 0x2E, M
   0x2E,           -- 0x2F, . and >
   K.KEY_TAB.val,          -- 0x30, Tab key
   0x20,           -- 0x31, Space key
   0x60, -- 0x32, backtick and tilde
   K.KEY_BACKSPACE.val,    -- 0x33, Backspace key
   0,                        -- 0x34, 0
   K.KEY_ESC.val,          -- 0x35, Escape key
   K.KEY_LEFT_CTRL.val,    -- 0x36, Left control key
   K.KEY_LEFT_GUI.val,     -- 0x37, Command key
   K.KEY_LEFT_SHIFT.val,   -- 0x38, Left shift key
   K.KEY_CAPS_LOCK.val,    -- 0x39, Caps lock key
   K.KEY_LEFT_ALT.val,     -- 0x3A, Left alt key
   K.KEY_LEFT_ARROW.val,   -- 0x3B, Left arrow key
   K.KEY_RIGHT_ARROW.val,  -- 0x3C, Right arrow key
   K.KEY_DOWN_ARROW.val,   -- 0x3D, Down arrow key
   K.KEY_UP_ARROW.val,     -- 0x3E, Up arrow key
   0,                        -- 0x3F, UNKNOWN
   0,                        -- 0x40, UNKNOWN
   K.KEY_KP_DOT.val,       -- 0x41, Keypad .
   0,                        -- 0x42, UNKNOWN
   K.KEY_KP_ASTERISK.val,  -- 0x43, Keypad *
   0,                        -- 0x44, UNKNOWN
   K.KEY_KP_PLUS.val,      -- 0x45, Keypad +
   0,                        -- 0x46, UNKNOWN
   K.KEY_NUM_LOCK.val,     -- 0x47, Num Lock key
   0,                        -- 0x48, UNKNOWN
   0,                        -- 0x49, UNKNOWN
   0,                        -- 0x4A, UNKNOWN
   K.KEY_KP_SLASH.val,     -- 0x4B, Keypad /
   K.KEY_KP_ENTER.val,     -- 0x4C, Keypad Enter
   0,                        -- 0x4D, UNKNOWN
   K.KEY_KP_MINUS.val,     -- 0x4E, Keypad -
   0,                        -- 0x4F, UNKNOWN
   0,                        -- 0x50, UNKNOWN
   0x3D,           -- 0x51, Keypad =
   K.KEY_KP_0.val,         -- 0x52, Keypad 0
   K.KEY_KP_1.val,         -- 0x53, Keypad 1
   K.KEY_KP_2.val,         -- 0x54, Keypad 2
   K.KEY_KP_3.val,         -- 0x55, Keypad 3
   K.KEY_KP_4.val,         -- 0x56, Keypad 4
   K.KEY_KP_5.val,         -- 0x57, Keypad 5
   K.KEY_KP_6.val,         -- 0x58, Keypad 6
   K.KEY_KP_7.val,         -- 0x59, Keypad 7
   0,                        -- 0x5A, UNKNOWN
   K.KEY_KP_8.val,         -- 0x5B, Keypad 8
   K.KEY_KP_9.val,         -- 0x5C, Keypad 9
   0,                        -- 0x5D, UNKNOWN
   0,                        -- 0x5E, UNKNOWN
   0,                        -- 0x5F, UNKNOWN
   K.KEY_F5.val,           -- 0x60, F5
   K.KEY_F6.val,           -- 0x61, F6
   K.KEY_F7.val,           -- 0x62, F7
   K.KEY_F3.val,           -- 0x63, F3
   K.KEY_F8.val,           -- 0x64, F8
   K.KEY_F9.val,           -- 0x65, F9
   0,                        -- 0x66, UNKNOWN
   K.KEY_F11.val,          -- 0x67, F11
   0,                        -- 0x68, UNKNOWN
   K.KEY_F13.val,          -- 0x69, F13
   0,                        -- 0x6A, UNKNOWN
   K.KEY_F14.val,          -- 0x6B, F14
   0,                        -- 0x6C, UNKNOWN
   K.KEY_F10.val,          -- 0x6D, F10
   0,                        -- 0x6E, UNKNOWN
   K.KEY_F12.val,          -- 0x6F, F12
   0,                        -- 0x70, UNKNOWN
   K.KEY_F15.val,          -- 0x71, F15
   K.KEY_INSERT.val,       -- 0x72, Insert key
   K.KEY_HOME.val,         -- 0x73, Home key
   K.KEY_PAGE_UP.val,      -- 0x74, Page up key
   K.KEY_DELETE.val,       -- 0x75, Delete key
   K.KEY_F4.val,           -- 0x76, F4
   K.KEY_END.val,          -- 0x77, End key
   K.KEY_F2.val,           -- 0x78, F2
   K.KEY_PAGE_DOWN.val,    -- 0x79, Page down key
   K.KEY_F1.val,           -- 0x7A, F1
   K.KEY_RIGHT_SHIFT.val,  -- 0x7B, Right shift
   K.KEY_RIGHT_ALT.val,    -- 0x7C, Right alt key
   K.KEY_RIGHT_CTRL.val,   -- 0x7D, Right control key
   0,                        -- 0x7E, UNKNOWN
   0]                        -- 0x7F, Power button

/-- The spec's operation `lookup(scanCode) -> KeyCode`: index the table.
The domain `Fin 128` reflects the input contract (a 7-bit scan code). -/
def lookup (K : KeyConstants) (i : Fin 128) : Nat :=
  (keymap K).getD i.val 0

example : ∀ K : KeyConstants, lookup K (0x00 : Fin 128) = 97 := fun _ => rfl
example : ∀ K : KeyConstants, lookup K (0x24 : Fin 128) = K.KEY_RETURN.val :=
  fun _ => rfl
example : ∀ K : KeyConstants, lookup K (0x7F : Fin 128) = 0 := fun _ => rfl

/-- A read of the table with the table's state threaded explicitly: the C
expression `keymap[i]` returns the stored byte and leaves the array as it
was.  Used to express that `lookup` has no side effect on the table. -/
def lookupState (t : List Nat) (i : Fin 128) : Nat × List Nat :=
  (t.getD i.val 0, t)

/-- Spec-side list: the scan codes the spec's content-contract table
declares "Unmapped; value 0" (section 4, last row). -/
def specUnmappedCodes : List Nat :=
  [0x0A, 0x34, 0x3F, 0x40, 0x42, 0x44, 0x46, 0x48, 0x49, 0x4A, 0x4D,
   0x4F, 0x50, 0x5A, 0x5D, 0x5E, 0x5F, 0x66, 0x68, 0x6A, 0x6C, 0x6E,
   0x70, 0x7E, 0x7F]

/-- Spec-side list: the indices inside 0x60-0x7A the spec declares
unmapped. -/
def fnUnmappedCodes : List Nat := [0x66, 0x68, 0x6A, 0x6C, 0x6E, 0x70]

/-- Spec-side list: the key codes the spec says populate the range
0x60-0x7A — the function keys F1-F15 plus Insert, Home, Page-Up,
Page-Down, Delete and End. -/
def fnRangeKeys (K : KeyConstants) : List Nat :=
  [K.KEY_F1.val, K.KEY_F2.val, K.KEY_F3.val, K.KEY_F4.val, K.KEY_F5.val,
   K.KEY_F6.val, K.KEY_F7.val, K.KEY_F8.val, K.KEY_F9.val, K.KEY_F10.val,
   K.KEY_F11.val, K.KEY_F12.val, K.KEY_F13.val, K.KEY_F14.val,
   K.KEY_F15.val, K.KEY_INSERT.val, K.KEY_HOME.val, K.KEY_PAGE_UP.val,
   K.KEY_PAGE_DOWN.val, K.KEY_DELETE.val, K.KEY_END.val]

/-- An ASCII letter code (upper or lower case). -/
abbrev isLetterCode (v : Nat) : Prop :=
  (65 ≤ v ∧ v ≤ 90) ∨ (97 ≤ v ∧ v ≤ 122)

/-- An ASCII digit code. -/
abbrev isDigitCode (v : Nat) : Prop := 48 ≤ v ∧ v ≤ 57

/-- An ASCII punctuation code (the four ASCII punctuation blocks). -/
abbrev isPunctCode (v : Nat) : Prop :=
  (33 ≤ v ∧ v ≤ 47) ∨ (58 ≤ v ∧ v ≤ 64) ∨ (91 ≤ v ∧ v ≤ 96) ∨
    (123 ≤ v ∧ v ≤ 126)

/-- Spec-side predicate for the content-contract row for 0x00-0x39:
the value is a letter, a digit, a punctuation character, Enter, Tab,
Space, Backtick, Backspace, or Escape. -/
abbrev typewriterKey (K : KeyConstants) (v : Nat) : Prop :=
  isLetterCode v ∨ isDigitCode v ∨ isPunctCode v ∨ v = K.KEY_RETURN.val ∨
    v = K.KEY_TAB.val ∨ v = 0x20 ∨ v = 0x60 ∨
    v = K.KEY_BACKSPACE.val ∨ v = K.KEY_ESC.val

/-- A concrete instantiation of the external constants, with the byte
values the Arduino keyboard library assigns to them.  Used only to
evaluate theorems on concrete inputs. -/
def arduinoKeys : KeyConstants where
  KEY_RETURN := 0xB0
  KEY_TAB := 0xB3
  KEY_BACKSPACE := 0xB2
  KEY_ESC := 0xB1
  KEY_LEFT_CTRL := 0x80
  KEY_LEFT_GUI := 0x83
  KEY_LEFT_SHIFT := 0x81
  KEY_CAPS_LOCK := 0xC1
  KEY_LEFT_ALT := 0x82
  KEY_LEFT_ARROW := 0xD8
  KEY_RIGHT_ARROW := 0xD7
  KEY_DOWN_ARROW := 0xD9
  KEY_UP_ARROW := 0xDA
  KEY_KP_DOT := 0xEB
  KEY_KP_ASTERISK := 0xDD
  KEY_KP_PLUS := 0xDF
  KEY_NUM_LOCK := 0xDB
  KEY_KP_SLASH := 0xDC
  KEY_KP_ENTER := 0xE0
  KEY_KP_MINUS := 0xDE
  KEY_KP_0 := 0xEA
  KEY_KP_1 := 0xE1
  KEY_KP_2 := 0xE2
  KEY_KP_3 := 0xE3
  KEY_KP_4 := 0xE4
  KEY_KP_5 := 0xE5
  KEY_KP_6 := 0xE6
  KEY_KP_7 := 0xE7
  KEY_KP_8 := 0xE8
  KEY_KP_9 := 0xE9
  KEY_F1 := 0xC2
  KEY_F2 := 0xC3
  KEY_F3 := 0xC4
  KEY_F4 := 0xC5
  KEY_F5 := 0xC6
  KEY_F6 := 0xC7
  KEY_F7 := 0xC8
  KEY_F8 := 0xC9
  KEY_F9 := 0xCA
  KEY_F10 := 0xCB
  KEY_F11 := 0xCC
  KEY_F12 := 0xCD
  KEY_F13 := 0xF0
  KEY_F14 := 0xF1
  KEY_F15 := 0xF2
  KEY_INSERT := 0xD1
  KEY_HOME := 0xD2
  KEY_PAGE_UP := 0xD3
  KEY_PAGE_DOWN := 0xD6
  KEY_DELETE := 0xD4
  KEY_END := 0xD5
  KEY_RIGHT_SHIFT := 0x85
  KEY_RIGHT_ALT := 0x86
  KEY_RIGHT_CTRL := 0x84

example : arduinoKeys.Valid := by decide

example (K : KeyConstants) (hV : K.Valid) :
    lookup K (0x24 : Fin 128) ≠ 0 :=
  hV _ (by simp [KeyConstants.fields])

/-- Claim C1: over the full input set `Fin 128`, the scan codes with a
non-zero lookup result are exactly the complement of the spec's unmapped
list — no extra mapped scan codes and no omitted ones. -/
theorem lookup_nonzero_iff_mapped (K : KeyConstants) (hV : K.Valid)
    (i : Fin 128) : lookup K i ≠ 0 ↔ i.val ∉ specUnmappedCodes := by
  fin_cases i <;>
    first
      | exact iff_of_false (fun h => h rfl) (fun h => h (by decide))
      | exact iff_of_true (hV _ (by simp [KeyConstants.fields])) (by decide)
      | exact iff_of_true (of_decide_eq_true rfl) (by decide)

/-- Witness for C1 at the concrete constants and scan code 0x24. -/
theorem lookup_nonzero_iff_mapped_witness :
    arduinoKeys.Valid ∧
      (lookup arduinoKeys (0x24 : Fin 128) ≠ 0 ↔
        (0x24 : Fin 128).val ∉ specUnmappedCodes) :=
  ⟨by decide, lookup_nonzero_iff_mapped arduinoKeys (by decide) (0x24 : Fin 128)⟩

/-- Claim C2: every scan code on the spec's unmapped list looks up to the
sentinel 0; the sentinel is the table's only error signal (the lookup is a
total function into `Nat`, so no exception or error code exists). -/
theorem unmapped_lookup_zero (K : KeyConstants) (i : Fin 128) :
    i.val ∈ specUnmappedCodes → lookup K i = 0 := by
  fin_cases i <;> first | exact fun _ => rfl | exact fun h => absurd h (by decide)

/-- Witness for C2 at the concrete constants and scan code 0x0A. -/
theorem unmapped_lookup_zero_witness :
    lookup arduinoKeys (0x0A : Fin 128) = 0 :=
  unmapped_lookup_zero arduinoKeys (0x0A : Fin 128) (by decide)

/-- Claim C3: the four sample lookups of the spec — scan code 0x00 yields
the letter a (ASCII 0x61), 0x24 yields the Return key code `KEY_RETURN`,
0x31 yields the space character (ASCII 0x20), and 0x7A yields the F1 key
code `KEY_F1`. -/
theorem lookup_sample_values (K : KeyConstants) :
    lookup K (0x00 : Fin 128) = 0x61 ∧
      lookup K (0x24 : Fin 128) = K.KEY_RETURN.val ∧
      lookup K (0x31 : Fin 128) = 0x20 ∧
      lookup K (0x7A : Fin 128) = K.KEY_F1.val :=
  ⟨rfl, rfl, rfl, rfl⟩

/-- Claim C4: the two distinct scan codes 0x18 (top-row equals) and 0x51
(keypad equals) both map to the ASCII equals sign 0x3D — the duplication
is preserved, not deduplicated. -/
theorem equals_sign_duplicated (K : KeyConstants) :
    lookup K (0x18 : Fin 128) = 0x3D ∧ lookup K (0x51 : Fin 128) = 0x3D ∧
      lookup K (0x18 : Fin 128) = lookup K (0x51 : Fin 128) :=
  ⟨rfl, rfl, rfl⟩

/-- Claim C5: the table has exactly 128 entries indexed 0..127; every
index in range has a defined value, and any index at or beyond 128 lies
outside the defined domain (element access yields `none`). -/
theorem keymap_length_and_domain (K : KeyConstants) :
    (keymap K).length = 128 ∧ (∀ i : Fin 128, ∃ v : Nat, lookup K i = v) ∧
      ∀ j : Nat, 128 ≤ j → (keymap K).get? j = none :=
  ⟨rfl, fun i => ⟨lookup K i, rfl⟩, fun _ hj => List.get?_eq_none.mpr hj⟩

/-- Witness for C5 at the concrete constants and index 128. -/
theorem keymap_length_and_domain_witness :
    (keymap arduinoKeys).get? 128 = none :=
  (keymap_length_and_domain arduinoKeys).2.2 128 (by decide)

/-- Claim C8: lookup is pure, deterministic and total: reading the table
returns exactly the `lookup` value together with the table unchanged (no
side effect), and a second read after the first returns the same value. -/
theorem lookup_pure (K : KeyConstants) (i : Fin 128) :
    lookupState (keymap K) i = (lookup K i, keymap K) ∧
      (lookupState ((lookupState (keymap K) i).2) i).1 =
        (lookupState (keymap K) i).1 :=
  ⟨rfl, rfl⟩

/-- Claim C9: the entry for scan code 0x27 (the quote key) is the raw byte
literal 0x27, which is the ASCII code of the apostrophe character, so the
lookup yields the expected printable character. -/
theorem quote_key_raw_byte (K : KeyConstants) :
    lookup K (0x27 : Fin 128) = 0x27 ∧
      Char.ofNat (lookup K (0x27 : Fin 128)) = Char.ofNat 0x27 :=
  ⟨rfl, rfl⟩

/-- Claim C10: scan code 0x47 maps to the Num Lock key code — a non-zero
mapped entry, not on the spec's unmapped list, although it lies inside
the keypad range 0x41-0x5C. -/
theorem numlock_key_mapped (K : KeyConstants) (hV : K.Valid) :
    lookup K (0x47 : Fin 128) = K.KEY_NUM_LOCK.val ∧
      lookup K (0x47 : Fin 128) ≠ 0 ∧
      (0x47 : Fin 128).val ∉ specUnmappedCodes :=
  ⟨rfl, hV _ (by simp [KeyConstants.fields]), by decide⟩

/-- Witness for C10 at the concrete constants. -/
theorem numlock_key_mapped_witness :
    arduinoKeys.Valid ∧ lookup arduinoKeys (0x47 : Fin 128) ≠ 0 :=
  ⟨by decide, (numlock_key_mapped arduinoKeys (by decide)).2.1⟩

/-- Claim C6, counterexample: as stated the claim fails at scan code 0x36,
which lies in 0x00-0x39 and differs from 0x0A and 0x34, yet maps to the
Left-Ctrl modifier code — not a letter, digit, punctuation character,
Enter, Tab, Space, Backtick, Backspace or Escape (shown at the concrete
Arduino constants, which satisfy the validity assumption). -/
theorem typewriter_row_counterexample :
    arduinoKeys.Valid ∧ (0x36 : Fin 128).val ≤ 0x39 ∧
      (0x36 : Fin 128).val ≠ 0x0A ∧ (0x36 : Fin 128).val ≠ 0x34 ∧
      ¬ typewriterKey arduinoKeys (lookup arduinoKeys (0x36 : Fin 128)) :=
  ⟨by decide, by decide, by decide, by decide, by decide⟩

/-- Claim C6, amended: for every scan code i in the range 0x00-0x35 except
0x0A and 0x34, lookup(i) is a letter, a digit, a punctuation character,
Enter, Tab, Space, Backtick, Backspace, or Escape.  (Scan codes 0x36-0x39
hold the modifier keys the spec's own modifier row describes.) -/
theorem typewriter_row_amended (K : KeyConstants) (i : Fin 128)
    (h1 : i.val ≤ 0x35) (h2 : i.val ≠ 0x0A) (h3 : i.val ≠ 0x34) :
    typewriterKey K (lookup K i) := by
  fin_cases i <;>
    first
      | exact absurd h1 (of_decide_eq_false rfl)
      | exact absurd rfl h2
      | exact absurd rfl h3
      | exact Or.inl (of_decide_eq_true rfl)
      | exact Or.inr (Or.inl (of_decide_eq_true rfl))
      | exact Or.inr (Or.inr (Or.inl (of_decide_eq_true rfl)))
      | exact Or.inr (Or.inr (Or.inr (Or.inl rfl)))
      | exact Or.inr (Or.inr (Or.inr (Or.inr (Or.inl rfl))))
      | exact Or.inr (Or.inr (Or.inr (Or.inr (Or.inr (Or.inl rfl)))))
      | exact Or.inr (Or.inr (Or.inr (Or.inr (Or.inr (Or.inr (Or.inl rfl))))))
      | exact Or.inr (Or.inr (Or.inr (Or.inr (Or.inr (Or.inr (Or.inr
          (Or.inl rfl)))))))
      | exact Or.inr (Or.inr (Or.inr (Or.inr (Or.inr (Or.inr (Or.inr
          (Or.inr rfl)))))))

/-- Witness for the amended C6 at the concrete constants and scan code 0. -/
theorem typewriter_row_amended_witness :
    typewriterKey arduinoKeys (lookup arduinoKeys (0x00 : Fin 128)) :=
  typewriter_row_amended arduinoKeys (0x00 : Fin 128) (by decide) (by decide)
    (by decide)

/-- Claim C7: within the range 0x60-0x7A, an entry is zero exactly at the
six indices 0x66, 0x68, 0x6A, 0x6C, 0x6E, 0x70; every mapped entry there
is one of the function keys F1-F15, Insert, Home, Page-Up, Page-Down,
Delete or End; and each of those twenty-one keys is attained somewhere in
the range — no omissions. -/
theorem fn_range_content (K : KeyConstants) (hV : K.Valid) :
    (∀ i : Fin 128, 0x60 ≤ i.val → i.val ≤ 0x7A →
      (lookup K i = 0 ↔ i.val ∈ fnUnmappedCodes)) ∧
    (∀ i : Fin 128, 0x60 ≤ i.val → i.val ≤ 0x7A → lookup K i ≠ 0 →
      lookup K i ∈ fnRangeKeys K) ∧
    ∀ v ∈ fnRangeKeys K, ∃ i : Fin 128,
      0x60 ≤ i.val ∧ i.val ≤ 0x7A ∧ lookup K i = v := by
  refine ⟨fun i h1 h2 => ?_, fun i h1 h2 h3 => ?_, fun v hv => ?_⟩
  · fin_cases i <;>
      first
        | exact absurd h1 (of_decide_eq_false rfl)
        | exact absurd h2 (of_decide_eq_false rfl)
        | exact iff_of_true rfl (of_decide_eq_true rfl)
        | exact iff_of_false (hV _ (by simp [KeyConstants.fields]))
            (of_decide_eq_false rfl)
  · fin_cases i <;>
      first
        | exact absurd h1 (of_decide_eq_false rfl)
        | exact absurd h2 (of_decide_eq_false rfl)
        | exact absurd rfl h3
        | exact List.Mem.head _
        | exact List.Mem.tail _ (List.Mem.head _)
        | exact List.Mem.tail _ (List.Mem.tail _ (List.Mem.head _))
        | exact List.Mem.tail _ (List.Mem.tail _ (List.Mem.tail _
            (List.Mem.head _)))
        | exact List.Mem.tail _ (List.Mem.tail _ (List.Mem.tail _
            (List.Mem.tail _ (List.Mem.head _))))
        | exact List.Mem.tail _ (List.Mem.tail _ (List.Mem.tail _
            (List.Mem.tail _ (List.Mem.tail _ (List.Mem.head _)))))
        | exact List.Mem.tail _ (List.Mem.tail _ (List.Mem.tail _
            (List.Mem.tail _ (List.Mem.tail _ (List.Mem.tail _
            (List.Mem.head _))))))
        | exact List.Mem.tail _ (List.Mem.tail _ (List.Mem.tail _
            (List.Mem.tail _ (List.Mem.tail _ (List.Mem.tail _
            (List.Mem.tail _ (List.Mem.head _)))))))
        | exact List.Mem.tail _ (List.Mem.tail _ (List.Mem.tail _
            (List.Mem.tail _ (List.Mem.tail _ (List.Mem.tail _
            (List.Mem.tail _ (List.Mem.tail _ (List.Mem.head _))))))))
        | exact List.Mem.tail _ (List.Mem.tail _ (List.Mem.tail _
            (List.Mem.tail _ (List.Mem.tail _ (List.Mem.tail _
            (List.Mem.tail _ (List.Mem.tail _ (List.Mem.tail _
            (List.Mem.head _)))))))))
        | exact List.Mem.tail _ (List.Mem.tail _ (List.Mem.tail _
            (List.Mem.tail _ (List.Mem.tail _ (List.Mem.tail _
            (List.Mem.tail _ (List.Mem.tail _ (List.Mem.tail _
            (List.Mem.tail _ (List.Mem.head _))))))))))
        | exact List.Mem.tail _ (List.Mem.tail _ (List.Mem.tail _
            (List.Mem.tail _ (List.Mem.tail _ (List.Mem.tail _
            (List.Mem.tail _ (List.Mem.tail _ (List.Mem.tail _
            (List.Mem.tail _ (List.Mem.tail _ (List.Mem.head _)))))))))))
        | exact List.Mem.tail _ (List.Mem.tail _ (List.Mem.tail _
            (List.Mem.tail _ (List.Mem.tail _ (List.Mem.tail _
            (List.Mem.tail _ (List.Mem.tail _ (List.Mem.tail _
            (List.Mem.tail _ (List.Mem.tail _ (List.Mem.tail _
            (List.Mem.head _))))))))))))
        | exact List.Mem.tail _ (List.Mem.tail _ (List.Mem.tail _
            (List.Mem.tail _ (List.Mem.tail _ (List.Mem.tail _
            (List.Mem.tail _ (List.Mem.tail _ (List.Mem.tail _
            (List.Mem.tail _ (List.Mem.tail _ (List.Mem.tail _
            (List.Mem.tail _ (List.Mem.head _)))))))))))))
        | exact List.Mem.tail _ (List.Mem.tail _ (List.Mem.tail _
            (List.Mem.tail _ (List.Mem.tail _ (List.Mem.tail _
            (List.Mem.tail _ (List.Mem.tail _ (List.Mem.tail _
            (List.Mem.tail _ (List.Mem.tail _ (List.Mem.tail _
            (List.Mem.tail _ (List.Mem.tail _ (List.Mem.head _))))))))))))))
        | exact List.Mem.tail _ (List.Mem.tail _ (List.Mem.tail _
            (List.Mem.tail _ (List.Mem.tail _ (List.Mem.tail _
            (List.Mem.tail _ (List.Mem.tail _ (List.Mem.tail _
            (List.Mem.tail _ (List.Mem.tail _ (List.Mem.tail _
            (List.Mem.tail _ (List.Mem.tail _ (List.Mem.tail _
            (List.Mem.head _)))))))))))))))
        | exact List.Mem.tail _ (List.Mem.tail _ (List.Mem.tail _
            (List.Mem.tail _ (List.Mem.tail _ (List.Mem.tail _
            (List.Mem.tail _ (List.Mem.tail _ (List.Mem.tail _
            (List.Mem.tail _ (List.Mem.tail _ (List.Mem.tail _
            (List.Mem.tail _ (List.Mem.tail _ (List.Mem.tail _
            (List.Mem.tail _ (List.Mem.head _))))))))))))))))
        | exact List.Mem.tail _ (List.Mem.tail _ (List.Mem.tail _
            (List.Mem.tail _ (List.Mem.tail _ (List.Mem.tail _
            (List.Mem.tail _ (List.Mem.tail _ (List.Mem.tail _
            (List.Mem.tail _ (List.Mem.tail _ (List.Mem.tail _
            (List.Mem.tail _ (List.Mem.tail _ (List.Mem.tail _
            (List.Mem.tail _ (List.Mem.tail _ (List.Mem.head _)))))))))))))))))
        | exact List.Mem.tail _ (List.Mem.tail _ (List.Mem.tail _
            (List.Mem.tail _ (List.Mem.tail _ (List.Mem.tail _
            (List.Mem.tail _ (List.Mem.tail _ (List.Mem.tail _
            (List.Mem.tail _ (List.Mem.tail _ (List.Mem.tail _
            (List.Mem.tail _ (List.Mem.tail _ (List.Mem.tail _
            (List.Mem.tail _ (List.Mem.tail _ (List.Mem.tail _
            (List.Mem.head _))))))))))))))))))
        | exact List.Mem.tail _ (List.Mem.tail _ (List.Mem.tail _
            (List.Mem.tail _ (List.Mem.tail _ (List.Mem.tail _
            (List.Mem.tail _ (List.Mem.tail _ (List.Mem.tail _
            (List.Mem.tail _ (List.Mem.tail _ (List.Mem.tail _
            (List.Mem.tail _ (List.Mem.tail _ (List.Mem.tail _
            (List.Mem.tail _ (List.Mem.tail _ (List.Mem.tail _
            (List.Mem.tail _ (List.Mem.head _)))))))))))))))))))
        | exact List.Mem.tail _ (List.Mem.tail _ (List.Mem.tail _
            (List.Mem.tail _ (List.Mem.tail _ (List.Mem.tail _
            (List.Mem.tail _ (List.Mem.tail _ (List.Mem.tail _
            (List.Mem.tail _ (List.Mem.tail _ (List.Mem.tail _
            (List.Mem.tail _ (List.Mem.tail _ (List.Mem.tail _
            (List.Mem.tail _ (List.Mem.tail _ (List.Mem.tail _
            (List.Mem.tail _ (List.Mem.tail _ (List.Mem.head _))))))))))))))))))))
  · simp only [fnRangeKeys, List.mem_cons, List.mem_nil_iff, or_false] at hv
    rcases hv with rfl | rfl | rfl | rfl | rfl | rfl | rfl | rfl | rfl | rfl |
      rfl | rfl | rfl | rfl | rfl | rfl | rfl | rfl | rfl | rfl | rfl
    · exact ⟨(0x7A : Fin 128), of_decide_eq_true rfl, of_decide_eq_true rfl, rfl⟩
    · exact ⟨(0x78 : Fin 128), of_decide_eq_true rfl, of_decide_eq_true rfl, rfl⟩
    · exact ⟨(0x63 : Fin 128), of_decide_eq_true rfl, of_decide_eq_true rfl, rfl⟩
    · exact ⟨(0x76 : Fin 128), of_decide_eq_true rfl, of_decide_eq_true rfl, rfl⟩
    · exact ⟨(0x60 : Fin 128), of_decide_eq_true rfl, of_decide_eq_true rfl, rfl⟩
    · exact ⟨(0x61 : Fin 128), of_decide_eq_true rfl, of_decide_eq_true rfl, rfl⟩
    · exact ⟨(0x62 : Fin 128), of_decide_eq_true rfl, of_decide_eq_true rfl, rfl⟩
    · exact ⟨(0x64 : Fin 128), of_decide_eq_true rfl, of_decide_eq_true rfl, rfl⟩
    · exact ⟨(0x65 : Fin 128), of_decide_eq_true rfl, of_decide_eq_true rfl, rfl⟩
    · exact ⟨(0x6D : Fin 128), of_decide_eq_true rfl, of_decide_eq_true rfl, rfl⟩
    · exact ⟨(0x67 : Fin 128), of_decide_eq_true rfl, of_decide_eq_true rfl, rfl⟩
    · exact ⟨(0x6F : Fin 128), of_decide_eq_true rfl, of_decide_eq_true rfl, rfl⟩
    · exact ⟨(0x69 : Fin 128), of_decide_eq_true rfl, of_decide_eq_true rfl, rfl⟩
    · exact ⟨(0x6B : Fin 128), of_decide_eq_true rfl, of_decide_eq_true rfl, rfl⟩
    · exact ⟨(0x71 : Fin 128), of_decide_eq_true rfl, of_decide_eq_true rfl, rfl⟩
    · exact ⟨(0x72 : Fin 128), of_decide_eq_true rfl, of_decide_eq_true rfl, rfl⟩
    · exact ⟨(0x73 : Fin 128), of_decide_eq_true rfl, of_decide_eq_true rfl, rfl⟩
    · exact ⟨(0x74 : Fin 128), of_decide_eq_true rfl, of_decide_eq_true rfl, rfl⟩
    · exact ⟨(0x79 : Fin 128), of_decide_eq_true rfl, of_decide_eq_true rfl, rfl⟩
    · exact ⟨(0x75 : Fin 128), of_decide_eq_true rfl, of_decide_eq_true rfl, rfl⟩
    · exact ⟨(0x77 : Fin 128), of_decide_eq_true rfl, of_decide_eq_true rfl, rfl⟩

/-- Witness for C7 at the concrete constants: part one applied at scan
code 0x66. -/
theorem fn_range_content_witness :
    arduinoKeys.Valid ∧
      (lookup arduinoKeys (0x66 : Fin 128) = 0 ↔
        (0x66 : Fin 128).val ∈ fnUnmappedCodes) :=
  ⟨by decide, (fn_range_content arduinoKeys (by decide)).1 (0x66 : Fin 128)
    (by decide) (by decide)⟩
